import Mathlib

/-!
A shallow embedding of the RescueMesh matching service core
(`matchingService.js` and the match lifecycle routes in `routes/matching.js`),
with theorems checking the natural-language specification against it.

Numbers are modelled as rationals (`ℚ`); the environment-driven tunables
(`MAX_MATCH_RADIUS`, `MATCH_SCORE_THRESHOLD`, `MAX_MATCHES_PER_REQUEST`) are
gathered in a `Config` record; registry collaborators are modelled as
functions returning `Except Unit` values (an `error` models a failed/timed-out
HTTP call); the persistent `matches` table is a `List MatchRow`.
-/

namespace RescueMesh

/-- Environment-driven tunables read by the service
(`MAX_MATCH_RADIUS`, `MATCH_SCORE_THRESHOLD`, `MAX_MATCHES_PER_REQUEST`). -/
structure Config where
  maxRadius : ℚ
  threshold : ℚ
  maxMatches : ℕ
deriving Repr, DecidableEq

/-- Default configuration values: radius 50 km, threshold 5.0, max 10 matches. -/
def defaultConfig : Config := ⟨50, 5, 10⟩

/-- A skill-registry candidate as consumed by `findSkillMatches`
(`response.data.skills` elements). `trustScore` is `none` when the field is
absent on the record. -/
structure Skill where
  userId : String
  skillId : String
  skillType : String
  availability : String
  verified : Bool
  trustScore : Option ℚ
  certificationLevel : Option String
  locationLat : ℚ
  locationLon : ℚ
deriving Repr, DecidableEq

/-- A resource-registry candidate as consumed by `findResourceMatches`. -/
structure Resource where
  userId : String
  resourceId : String
  resourceType : String
  availability : String
  locationLat : ℚ
  locationLon : ℚ
deriving Repr, DecidableEq

/-- The binary `Math.max` on rationals, written with an `if` so that concrete
instances reduce in the kernel. -/
def jsMax (a b : ℚ) : ℚ := if a ≤ b then b else a

/-- The binary `Math.min` on rationals, written with an `if` so that concrete
instances reduce in the kernel. -/
def jsMin (a b : ℚ) : ℚ := if a ≤ b then a else b

theorem jsMax_eq_max (a b : ℚ) : jsMax a b = max a b := (max_def a b).symm

theorem jsMin_eq_min (a b : ℚ) : jsMin a b = min a b := (min_def a b).symm

/-- The JavaScript expression `skill.trustScore || 5.0`: the default 5.0 is
used when `trustScore` is absent, and also when it is `0`, because `0` is
falsy in JavaScript. -/
def trustOrDefault (t : Option ℚ) : ℚ :=
  match t with
  | none => 5
  | some v => if v = 0 then 5 else v

/-- The scoring engine `calculateMatchScore(skill, distance, urgency)`
(matchingService.js lines 232-252), with the environment reads made explicit
through `cfg`. -/
def calculateMatchScore (cfg : Config) (skill : Skill) (distance : ℚ)
    (urgency : String) : ℚ :=
  let score0 : ℚ := 0
  let score1 := score0 + trustOrDefault skill.trustScore * (4/10)
  let distanceScore := jsMax 0 (10 - (distance / cfg.maxRadius) * 10)
  let score2 := score1 + distanceScore * (3/10)
  let urgencyMultiplier : ℚ :=
    if urgency = "critical" then 12/10 else if urgency = "high" then 11/10 else 1
  let score3 := score2 * urgencyMultiplier
  let score4 :=
    if skill.certificationLevel = some "expert" then score3 + 1
    else if skill.certificationLevel = some "intermediate" then score3 + 1/2
    else score3
  jsMin 10 score4

/-- Modelled from the spec (section 4.1), for comparison with
`calculateMatchScore`: the spec's scoring formula, taking the trust score as a
plain number after the spec's stated default rule ("defaults to 5.0 when
absent") has been applied by the caller. -/
def specScore (cfg : Config) (trustScore : ℚ) (certificationLevel : Option String)
    (distance : ℚ) (urgency : String) : ℚ :=
  let base := trustScore * (4/10) + jsMax 0 (10 - (distance / cfg.maxRadius) * 10) * (3/10)
  let multiplier : ℚ :=
    if urgency = "critical" then 12/10 else if urgency = "high" then 11/10 else 1
  let score := base * multiplier
  let score1 :=
    if certificationLevel = some "expert" then score + 1
    else if certificationLevel = some "intermediate" then score + 1/2
    else score
  jsMin 10 score1

/-- A concrete candidate with a zero trust score, used to exhibit the
divergence between the code's falsy default and the spec's formula. -/
def zeroTrustSkill : Skill :=
  { userId := "u0", skillId := "s0", skillType := "medic",
    availability := "available", verified := true, trustScore := some 0,
    certificationLevel := none, locationLat := 0, locationLon := 0 }

/-- The spec's worked-scenario candidate: trustScore 8, expert certification. -/
def scenarioSkill : Skill :=
  { userId := "u1", skillId := "s1", skillType := "medic",
    availability := "available", verified := true, trustScore := some 8,
    certificationLevel := some "expert", locationLat := 0, locationLon := 0 }

/-- C2 (counterexample): at a candidate whose `trustScore` field is present
and equal to 0 (a value inside the claimed domain [0,10]), the code scores
5 — because `skill.trustScore || 5.0` treats 0 as falsy and substitutes the
default — while the spec formula applied to trustScore 0 yields 3. -/
theorem score_formula_zero_trust_counterexample :
    calculateMatchScore defaultConfig zeroTrustSkill 0 "medium" = 5 ∧
    specScore defaultConfig 0 none 0 "medium" = 3 ∧
    calculateMatchScore defaultConfig zeroTrustSkill 0 "medium" ≠
      specScore defaultConfig 0 none 0 "medium" := by
  have hc : ¬ ("medium":String) = "critical" := by decide
  have hh : ¬ ("medium":String) = "high" := by decide
  have he : ¬ (none : Option String) = some "expert" := by decide
  have hi : ¬ (none : Option String) = some "intermediate" := by decide
  refine ⟨?_, ?_, ?_⟩ <;>
    norm_num [calculateMatchScore, specScore, defaultConfig, zeroTrustSkill,
      trustOrDefault, jsMax, jsMin, hc, hh, he, hi]

/-- C2 (amended): for every candidate whose `trustScore` is not the present
value 0 — i.e. it is absent (default 5.0) or non-zero — `calculateMatchScore`
returns exactly the spec formula of section 4.1, for every distance, urgency
and certification level. -/
theorem calculateMatchScore_eq_specScore (cfg : Config) (s : Skill) (d : ℚ)
    (u : String) (h : s.trustScore ≠ some 0) :
    calculateMatchScore cfg s d u =
      specScore cfg (s.trustScore.getD 5) s.certificationLevel d u := by
  cases hts : s.trustScore with
  | none => simp [calculateMatchScore, specScore, trustOrDefault, hts]
  | some t =>
    have ht : t ≠ 0 := by
      intro h0
      exact h (by rw [hts, h0])
    simp [calculateMatchScore, specScore, trustOrDefault, hts, ht]

/-- C2 (witness): the spec's worked instance — trustScore 8, distance 10,
maxRadius 50, urgency medium, expert certification — where the code agrees
with the spec formula and both yield 6.6 = 33/5. -/
theorem calculateMatchScore_eq_specScore_witness :
    calculateMatchScore defaultConfig scenarioSkill 10 "medium" =
      specScore defaultConfig 8 (some "expert") 10 "medium" ∧
    specScore defaultConfig 8 (some "expert") 10 "medium" = 33/5 :=
  ⟨calculateMatchScore_eq_specScore defaultConfig scenarioSkill 10 "medium"
      (by simp [scenarioSkill]),
   by
    have hc : ¬ ("medium":String) = "critical" := by decide
    have hh : ¬ ("medium":String) = "high" := by decide
    norm_num [specScore, defaultConfig, jsMax, jsMin, hc, hh]⟩

/-- C3: for every configuration, candidate with `trustScore` in [0,10] or
absent, distance ≥ 0, and any urgency and certification level, the computed
score lies in the closed interval [0, 10]. -/
theorem calculateMatchScore_in_range (cfg : Config) (s : Skill) (d : ℚ)
    (u : String) (ht : ∀ t, s.trustScore = some t → 0 ≤ t ∧ t ≤ 10)
    (hd : 0 ≤ d) :
    0 ≤ calculateMatchScore cfg s d u ∧ calculateMatchScore cfg s d u ≤ 10 := by
  have htrust : 0 ≤ trustOrDefault s.trustScore := by
    cases hts : s.trustScore with
    | none => norm_num [trustOrDefault]
    | some t =>
      by_cases h0 : t = 0
      · simp [trustOrDefault, h0]
      · simp only [trustOrDefault, if_neg h0]
        exact (ht t hts).1
  simp only [calculateMatchScore, jsMin_eq_min, jsMax_eq_max]
  refine ⟨le_min (by norm_num) ?_, min_le_left _ _⟩
  have hmax : (0:ℚ) ≤ max 0 (10 - d / cfg.maxRadius * 10) := le_max_left _ _
  have hmult : (0:ℚ) ≤
      (if u = "critical" then 12/10 else if u = "high" then 11/10 else 1) := by
    split_ifs <;> norm_num
  split_ifs with h1 h2 <;> nlinarith

/-- C3 (witness): the concrete scenario candidate at distance 10 and urgency
medium has a score in [0, 10]. -/
theorem calculateMatchScore_in_range_witness :
    0 ≤ calculateMatchScore defaultConfig scenarioSkill 10 "medium" ∧
    calculateMatchScore defaultConfig scenarioSkill 10 "medium" ≤ 10 :=
  calculateMatchScore_in_range defaultConfig scenarioSkill 10 "medium"
    (by
      intro t h
      simp [scenarioSkill] at h
      subst h
      norm_num)
    (by norm_num)

/-- C9: holding the candidate, urgency and configuration (with a positive
`maxRadius`) fixed, the score is monotonically non-increasing in distance:
for 0 ≤ d₁ ≤ d₂ the score at d₂ is at most the score at d₁. -/
theorem calculateMatchScore_antitone_in_distance (cfg : Config) (s : Skill)
    (u : String) (d₁ d₂ : ℚ) (hR : 0 < cfg.maxRadius) (h0 : 0 ≤ d₁)
    (h12 : d₁ ≤ d₂) :
    calculateMatchScore cfg s d₂ u ≤ calculateMatchScore cfg s d₁ u := by
  have hdiv : d₁ / cfg.maxRadius ≤ d₂ / cfg.maxRadius := by gcongr
  have hmax : max 0 (10 - d₂ / cfg.maxRadius * 10) ≤
      max 0 (10 - d₁ / cfg.maxRadius * 10) := by
    apply max_le_max le_rfl
    linarith
  have hmult : (0:ℚ) ≤
      (if u = "critical" then 12/10 else if u = "high" then 11/10 else 1) := by
    split_ifs <;> norm_num
  simp only [calculateMatchScore, jsMin_eq_min, jsMax_eq_max]
  have key : (0 + trustOrDefault s.trustScore * (4/10) +
        max 0 (10 - d₂ / cfg.maxRadius * 10) * (3/10)) *
          (if u = "critical" then 12/10 else if u = "high" then 11/10 else 1) ≤
      (0 + trustOrDefault s.trustScore * (4/10) +
        max 0 (10 - d₁ / cfg.maxRadius * 10) * (3/10)) *
          (if u = "critical" then 12/10 else if u = "high" then 11/10 else 1) := by
    apply mul_le_mul_of_nonneg_right _ hmult
    linarith
  split_ifs <;> exact min_le_min le_rfl (by linarith)

/-- C9 (witness): at the concrete scenario candidate, the score at distance 20
is at most the score at distance 10. -/
theorem calculateMatchScore_antitone_witness :
    calculateMatchScore defaultConfig scenarioSkill 20 "medium" ≤
      calculateMatchScore defaultConfig scenarioSkill 10 "medium" :=
  calculateMatchScore_antitone_in_distance defaultConfig scenarioSkill "medium"
    10 20 (by norm_num [defaultConfig]) (by norm_num) (by norm_num)

/-- The fixed lookup table `DISASTER_SKILL_MAP` (matchingService.js lines
9-16) together with the `|| []` fallback of line 109: JavaScript property
lookup modelled as an if-chain with default `[]`. -/
def DISASTER_SKILL_MAP (disasterType : String) : List String :=
  if disasterType = "flood" then
    ["boat_operator", "swimmer", "medic", "rescue_diver"]
  else if disasterType = "earthquake" then
    ["rescuer", "structural_engineer", "medic", "heavy_lifting"]
  else if disasterType = "cyclone" then
    ["shelter_manager", "logistics", "medic", "evacuation_specialist"]
  else if disasterType = "fire" then
    ["firefighter", "electrician", "medic", "smoke_diver"]
  else if disasterType = "tsunami" then
    ["rescue_diver", "medic", "boat_operator", "swimmer"]
  else if disasterType = "landslide" then
    ["rescuer", "medic", "heavy_lifting", "structural_engineer"]
  else []

/-- Line 110: `requiredSkills.length > 0 ? requiredSkills : relevantSkills`. -/
def skillsToFind (disasterType : String) (requiredSkills : List String) :
    List String :=
  if requiredSkills.length > 0 then requiredSkills
  else DISASTER_SKILL_MAP disasterType

/-- The element pushed onto `matches` in `findSkillMatches` (lines 148-156). -/
structure SkillMatch where
  volunteerId : String
  skillId : String
  skillType : String
  matchScore : ℚ
  distance : ℚ
  trustScore : ℚ
  availability : String
deriving Repr, DecidableEq

/-- The filter of lines 129-134: type tag matches, availability is
"available", and the verified flag is true. -/
def qualifiesSkill (skillType : String) (s : Skill) : Bool :=
  s.skillType == skillType && s.availability == "available" && s.verified == true

/-- Construction of one scored match entry (lines 137-156): distance via the
distance calculator, score via `calculateMatchScore`. -/
def mkSkillMatch (cfg : Config) (calcDist : ℚ → ℚ → ℚ → ℚ → ℚ) (lat lon : ℚ)
    (urgency : String) (s : Skill) : SkillMatch :=
  let distance := calcDist lat lon s.locationLat s.locationLon
  { volunteerId := s.userId, skillId := s.skillId, skillType := s.skillType,
    matchScore := calculateMatchScore cfg s distance urgency,
    distance := distance, trustScore := trustOrDefault s.trustScore,
    availability := s.availability }

/-- One iteration of the per-skill-tag loop (lines 114-161): a failed
registry call (`Except.error`) is caught and contributes no matches; a
successful one is filtered, scored and thresholded. -/
def skillMatchesForTag (cfg : Config) (calcDist : ℚ → ℚ → ℚ → ℚ → ℚ)
    (registry : String → Except Unit (List Skill)) (lat lon : ℚ)
    (urgency skillType : String) : List SkillMatch :=
  match registry skillType with
  | .error _ => []
  | .ok availableSkills =>
    ((availableSkills.filter (qualifiesSkill skillType)).map
        (mkSkillMatch cfg calcDist lat lon urgency)).filter
      (fun m => decide (cfg.threshold ≤ m.matchScore))

/-- Descending-score order used by the sort of line 165
(`(a, b) => b.matchScore - a.matchScore`). -/
def scoreDesc (a b : SkillMatch) : Prop := b.matchScore ≤ a.matchScore

instance : DecidableRel scoreDesc := fun a b =>
  inferInstanceAs (Decidable (b.matchScore ≤ a.matchScore))

instance : IsTotal SkillMatch scoreDesc :=
  ⟨fun a b => le_total b.matchScore a.matchScore⟩

instance : IsTrans SkillMatch scoreDesc :=
  ⟨fun _ _ _ h1 h2 => le_trans h2 h1⟩

/-- The full `matches` list accumulated by the per-tag loop, before the final
sort and truncation. -/
def skillMatchPool (cfg : Config) (calcDist : ℚ → ℚ → ℚ → ℚ → ℚ)
    (registry : String → Except Unit (List Skill)) (disasterType : String)
    (requiredSkills : List String) (lat lon : ℚ) (urgency : String) :
    List SkillMatch :=
  (skillsToFind disasterType requiredSkills).flatMap
    (skillMatchesForTag cfg calcDist registry lat lon urgency)

/-- The skill matcher `findSkillMatches` (matchingService.js lines 106-171):
tags to search, per-tag fetch/filter/score, sort descending by score, and
truncation to `maxMatches`. -/
def findSkillMatches (cfg : Config) (calcDist : ℚ → ℚ → ℚ → ℚ → ℚ)
    (registry : String → Except Unit (List Skill)) (disasterType : String)
    (requiredSkills : List String) (lat lon : ℚ) (urgency : String) :
    List SkillMatch :=
  ((skillMatchPool cfg calcDist registry disasterType requiredSkills lat lon
      urgency).insertionSort scoreDesc).take cfg.maxMatches

/-- The element pushed onto `matches` in `findResourceMatches`
(lines 208-213). -/
structure ResourceMatch where
  resourceId : String
  resourceType : String
  ownerId : String
  distance : ℚ
deriving Repr, DecidableEq

/-- The filter of lines 195-198: type tag matches and availability is
"available" (no verified flag for resources). -/
def qualifiesResource (resourceType : String) (r : Resource) : Bool :=
  r.resourceType == resourceType && r.availability == "available"

/-- Construction of one resource match entry (lines 200-214). -/
def mkResourceMatch (calcDist : ℚ → ℚ → ℚ → ℚ → ℚ) (lat lon : ℚ)
    (r : Resource) : ResourceMatch :=
  { resourceId := r.resourceId, resourceType := r.resourceType,
    ownerId := r.userId,
    distance := calcDist lat lon r.locationLat r.locationLon }

/-- One iteration of the per-resource-type loop (lines 180-218), with the
same catch-and-skip treatment of registry failures as for skills. -/
def resourceMatchesForTag (calcDist : ℚ → ℚ → ℚ → ℚ → ℚ)
    (registry : String → Except Unit (List Resource)) (lat lon : ℚ)
    (resourceType : String) : List ResourceMatch :=
  match registry resourceType with
  | .error _ => []
  | .ok availableResources =>
    (availableResources.filter (qualifiesResource resourceType)).map
      (mkResourceMatch calcDist lat lon)

/-- Ascending-distance order used by the sort of line 221
(`(a, b) => a.distance - b.distance`). -/
def distAsc (a b : ResourceMatch) : Prop := a.distance ≤ b.distance

instance : DecidableRel distAsc := fun a b =>
  inferInstanceAs (Decidable (a.distance ≤ b.distance))

instance : IsTotal ResourceMatch distAsc :=
  ⟨fun a b => le_total a.distance b.distance⟩

instance : IsTrans ResourceMatch distAsc :=
  ⟨fun _ _ _ h1 h2 => le_trans h1 h2⟩

/-- The resource matcher `findResourceMatches` (lines 176-227): iterate over
the explicitly requested resource types only, fetch/filter, sort ascending by
distance, truncate to `maxMatches`. -/
def findResourceMatches (cfg : Config) (calcDist : ℚ → ℚ → ℚ → ℚ → ℚ)
    (registry : String → Except Unit (List Resource)) (disasterType : String)
    (requiredResources : List String) (lat lon : ℚ) (urgency : String) :
    List ResourceMatch :=
  ((requiredResources.flatMap
      (resourceMatchesForTag calcDist registry lat lon)).insertionSort
    distAsc).take cfg.maxMatches

/-- A row of the `matches` table (schema in config/database.js). Timestamps
are abstract ticks (`ℕ`). -/
structure MatchRow where
  matchId : String
  requestId : String
  volunteerId : String
  skillId : Option String
  resourceId : Option String
  skillType : Option String
  resourceType : Option String
  matchScore : ℚ
  distance : ℚ
  trustScore : Option ℚ
  status : String
  acceptedAt : Option ℕ
  rejectedAt : Option ℕ
  rejectionReason : Option String
  createdAt : ℕ
  updatedAt : ℕ
deriving Repr, DecidableEq

/-- The INSERT of `saveMatch` (lines 257-280): skill columns populated,
resource columns NULL, status 'pending', timestamps defaulted to now. -/
def saveMatch (now : ℕ) (matchId requestId : String) (m : SkillMatch) :
    MatchRow :=
  { matchId, requestId, volunteerId := m.volunteerId,
    skillId := some m.skillId, resourceId := none,
    skillType := some m.skillType, resourceType := none,
    matchScore := m.matchScore, distance := m.distance,
    trustScore := some m.trustScore, status := "pending",
    acceptedAt := none, rejectedAt := none, rejectionReason := none,
    createdAt := now, updatedAt := now }

/-- The INSERT of `saveResourceMatch` (lines 285-307): resource columns
populated, skill columns NULL, the fixed score 8.0, no trust score, status
'pending'. -/
def saveResourceMatch (now : ℕ) (matchId requestId : String)
    (m : ResourceMatch) : MatchRow :=
  { matchId, requestId, volunteerId := m.ownerId,
    skillId := none, resourceId := some m.resourceId,
    skillType := none, resourceType := some m.resourceType,
    matchScore := 8, distance := m.distance,
    trustScore := none, status := "pending",
    acceptedAt := none, rejectedAt := none, rejectionReason := none,
    createdAt := now, updatedAt := now }

/-- The payload consumed by `processSOSRequest` (line 23); `requiredSkills`
and `requiredResources` are `Option` because the code guards them with
`|| []` (lines 42 and 50). -/
structure SOSData where
  requestId : String
  disasterId : String
  urgency : String
  requiredSkills : Option (List String)
  requiredResources : Option (List String)
  lat : ℚ
  lon : ℚ

/-- A `match.created` notification published per saved match (lines 81-92). -/
structure MatchCreatedEvent where
  matchId : String
  requestId : String
  volunteerId : String
  skillType : Option String
  resourceType : Option String
deriving Repr, DecidableEq

/-- The notification payload built from one saved match: `volunteerId` is
`match.volunteerId || match.ownerId`, which is the row's volunteer column in
both the skill and the resource case. -/
def rowEvent (r : MatchRow) : MatchCreatedEvent :=
  { matchId := r.matchId, requestId := r.requestId,
    volunteerId := r.volunteerId, skillType := r.skillType,
    resourceType := r.resourceType }

/-- The two sequential persistence loops of lines 56-67, over an abstract
store write that either succeeds (`true`) or throws (`false`). Returns the
rows actually persisted and whether the loop ran to completion; a thrown
write aborts the loop at that row. -/
def insertAll (dbWrite : MatchRow → Bool) : List MatchRow → List MatchRow × Bool
  | [] => ([], true)
  | r :: rs =>
    if dbWrite r then
      let rest := insertAll dbWrite rs
      (r :: rest.1, rest.2)
    else ([], false)

/-- The rows `processSOSRequest` tries to insert: one per skill match then
one per resource match, each under a fresh generated id (lines 56-67). -/
def pipelineRows (cfg : Config) (calcDist : ℚ → ℚ → ℚ → ℚ → ℚ)
    (skillRegistry : String → Except Unit (List Skill))
    (resourceRegistry : String → Except Unit (List Resource))
    (genId : ℕ → String) (now : ℕ) (disasterType : String) (sos : SOSData) :
    List MatchRow :=
  let skillMatches := findSkillMatches cfg calcDist skillRegistry disasterType
    (sos.requiredSkills.getD []) sos.lat sos.lon sos.urgency
  let resourceMatches := findResourceMatches cfg calcDist resourceRegistry
    disasterType (sos.requiredResources.getD []) sos.lat sos.lon sos.urgency
  (skillMatches.enum.map fun p => saveMatch now (genId p.1) sos.requestId p.2)
    ++ (resourceMatches.enum.map fun p =>
      saveResourceMatch now (genId (skillMatches.length + p.1)) sos.requestId p.2)

/-- Observable outcome of one orchestration run: rows persisted, whether the
best-effort SOS status report was attempted, the `match.created` events
published, and the value returned (or the propagated persistence error). -/
structure PipelineRun where
  persisted : List MatchRow
  statusReported : Bool
  events : List MatchCreatedEvent
  outcome : Except Unit (List MatchRow)
deriving Repr

/-- The orchestrator `processSOSRequest` (matchingService.js lines 21-101):
resolve the disaster type with a "flood" fallback, run both matchers,
persist every match (a throwing write propagates: the status report and the
notifications are skipped and the error is rethrown by the outer catch),
then report status, publish one event per saved match, and return them. -/
def resolveDisasterType (disasterLookup : Except Unit String) : String :=
  match disasterLookup with
  | .ok t => t
  | .error _ => "flood"

def processSOSRequest (cfg : Config) (calcDist : ℚ → ℚ → ℚ → ℚ → ℚ)
    (skillRegistry : String → Except Unit (List Skill))
    (resourceRegistry : String → Except Unit (List Resource))
    (dbWrite : MatchRow → Bool) (genId : ℕ → String) (now : ℕ)
    (disasterLookup : Except Unit String) (sos : SOSData) : PipelineRun :=
  let rows := pipelineRows cfg calcDist skillRegistry resourceRegistry genId
    now (resolveDisasterType disasterLookup) sos
  let ins := insertAll dbWrite rows
  if ins.2 then
    { persisted := ins.1, statusReported := true,
      events := rows.map rowEvent, outcome := .ok rows }
  else
    { persisted := ins.1, statusReported := false, events := [],
      outcome := .error () }

/-- The WHERE clause shared by the accept and reject UPDATEs
(routes/matching.js lines 32 and 72): `match_id = $ AND volunteer_id = $`.
The stored status is not part of the condition. -/
def matchesOwner (matchId volunteerId : String) (r : MatchRow) : Bool :=
  r.matchId == matchId && r.volunteerId == volunteerId

/-- The SET clause of the accept UPDATE (line 32). -/
def applyAccept (now : ℕ) (r : MatchRow) : MatchRow :=
  { r with status := "accepted", acceptedAt := some now, updatedAt := now }

/-- The accept UPDATE ... RETURNING * (lines 31-34): first component is the
table after the update, second the returned (updated) rows; the route
answers 404 not-found/unauthorized exactly when the returned list is
empty (line 36). -/
def acceptUpdate (now : ℕ) (matchId volunteerId : String)
    (db : List MatchRow) : List MatchRow × List MatchRow :=
  ((db.map fun r =>
      if matchesOwner matchId volunteerId r then applyAccept now r else r),
   (db.filter (matchesOwner matchId volunteerId)).map (applyAccept now))

/-- The SET clause of the reject UPDATE (line 72). -/
def applyReject (now : ℕ) (reason : Option String) (r : MatchRow) : MatchRow :=
  { r with
    status := "rejected"
    rejectedAt := some now
    rejectionReason := reason
    updatedAt := now }

/-- The reject UPDATE ... RETURNING * (lines 71-74), same WHERE clause. -/
def rejectUpdate (now : ℕ) (matchId volunteerId : String)
    (reason : Option String) (db : List MatchRow) :
    List MatchRow × List MatchRow :=
  ((db.map fun r =>
      if matchesOwner matchId volunteerId r then applyReject now reason r
      else r),
   (db.filter (matchesOwner matchId volunteerId)).map (applyReject now reason))

/-- C6: the searched skill set is the explicit `requiredSkills` when
non-empty, otherwise the fixed disaster-type mapping; for "fire" that mapping
is exactly [firefighter, electrician, medic, smoke_diver]; for a disaster
type outside the six-value enumeration, the search set with empty
`requiredSkills` is empty and `findSkillMatches` returns the empty list. -/
theorem skillsToFind_spec (disasterType : String)
    (requiredSkills : List String) :
    (requiredSkills ≠ [] →
      skillsToFind disasterType requiredSkills = requiredSkills) ∧
    skillsToFind disasterType [] = DISASTER_SKILL_MAP disasterType ∧
    DISASTER_SKILL_MAP "fire" =
      ["firefighter", "electrician", "medic", "smoke_diver"] ∧
    (disasterType ∉
        ["flood", "earthquake", "cyclone", "fire", "tsunami", "landslide"] →
      skillsToFind disasterType [] = [] ∧
      ∀ cfg calcDist registry lat lon urgency,
        findSkillMatches cfg calcDist registry disasterType [] lat lon
          urgency = []) := by
  refine ⟨?_, ?_, ?_, ?_⟩
  · intro h
    simp [skillsToFind, List.length_pos.mpr h]
  · simp [skillsToFind]
  · simp [DISASTER_SKILL_MAP]
  · intro h
    simp only [List.mem_cons, List.not_mem_nil, or_false, not_or] at h
    obtain ⟨h1, h2, h3, h4, h5, h6⟩ := h
    have hmap : DISASTER_SKILL_MAP disasterType = [] := by
      simp [DISASTER_SKILL_MAP, h1, h2, h3, h4, h5, h6]
    refine ⟨by simp [skillsToFind, hmap], ?_⟩
    intro cfg calcDist registry lat lon urgency
    simp [findSkillMatches, skillMatchPool, skillsToFind, hmap]

/-- C6 (witness): explicit skills win when present; the unknown disaster type
"asteroid" yields an empty search set. -/
theorem skillsToFind_spec_witness :
    skillsToFind "asteroid" ["medic"] = ["medic"] ∧
    skillsToFind "asteroid" [] = [] :=
  ⟨(skillsToFind_spec "asteroid" ["medic"]).1 (by decide),
   ((skillsToFind_spec "asteroid" []).2.2.2 (by decide)).1⟩

/-- C10: with an empty `requiredResources` list, `findResourceMatches`
returns the empty list, for every disaster type, location and urgency, and
independently of the resource registry — the per-type loop never issues a
query, and no disaster-type default set of resource types exists. -/
theorem findResourceMatches_empty_request (cfg : Config)
    (calcDist : ℚ → ℚ → ℚ → ℚ → ℚ)
    (registry₁ registry₂ : String → Except Unit (List Resource))
    (disasterType : String) (lat lon : ℚ) (urgency : String) :
    findResourceMatches cfg calcDist registry₁ disasterType [] lat lon
      urgency = [] ∧
    findResourceMatches cfg calcDist registry₁ disasterType [] lat lon
        urgency =
      findResourceMatches cfg calcDist registry₂ disasterType [] lat lon
        urgency := by
  simp [findResourceMatches]

theorem qualifiesSkill_iff {tag : String} {s : Skill} :
    qualifiesSkill tag s = true ↔
      s.skillType = tag ∧ s.availability = "available" ∧ s.verified = true := by
  simp [qualifiesSkill, and_assoc]

theorem mem_skillMatchesForTag {cfg : Config} {calcDist : ℚ → ℚ → ℚ → ℚ → ℚ}
    {registry : String → Except Unit (List Skill)} {lat lon : ℚ}
    {urgency tag : String} {m : SkillMatch} :
    m ∈ skillMatchesForTag cfg calcDist registry lat lon urgency tag ↔
      ∃ skills, registry tag = .ok skills ∧
        ∃ s ∈ skills, qualifiesSkill tag s = true ∧
          m = mkSkillMatch cfg calcDist lat lon urgency s ∧
          cfg.threshold ≤ m.matchScore := by
  unfold skillMatchesForTag
  cases hreg : registry tag with
  | error e => simp
  | ok skills =>
    simp only [List.mem_filter, List.mem_map, List.mem_filter,
      decide_eq_true_eq, Except.ok.injEq]
    constructor
    · rintro ⟨⟨s, ⟨hs, hq⟩, rfl⟩, hth⟩
      exact ⟨skills, rfl, s, hs, hq, rfl, hth⟩
    · rintro ⟨skills', hsk, s, hs, hq, rfl, hth⟩
      cases hsk
      exact ⟨⟨s, ⟨hs, hq⟩, rfl⟩, hth⟩

/-- C4: every element of the output of `findSkillMatches` stems from a
registry candidate whose type tag equals the searched tag, which is
available and verified, and whose score clears the threshold; the output is
sorted in non-increasing order of `matchScore`; and its length is at most
the configured maximum — for every candidate pool. -/
theorem findSkillMatches_output_spec (cfg : Config)
    (calcDist : ℚ → ℚ → ℚ → ℚ → ℚ)
    (registry : String → Except Unit (List Skill)) (disasterType : String)
    (requiredSkills : List String) (lat lon : ℚ) (urgency : String) :
    (∀ m ∈ findSkillMatches cfg calcDist registry disasterType requiredSkills
        lat lon urgency,
      ∃ tag ∈ skillsToFind disasterType requiredSkills, ∃ skills,
        registry tag = .ok skills ∧ ∃ s ∈ skills,
          s.skillType = tag ∧ s.availability = "available" ∧
          s.verified = true ∧ m = mkSkillMatch cfg calcDist lat lon urgency s ∧
          cfg.threshold ≤ m.matchScore) ∧
    List.Sorted scoreDesc (findSkillMatches cfg calcDist registry disasterType
      requiredSkills lat lon urgency) ∧
    (findSkillMatches cfg calcDist registry disasterType requiredSkills lat
      lon urgency).length ≤ cfg.maxMatches := by
  refine ⟨?_, ?_, ?_⟩
  · intro m hm
    have hm2 : m ∈ skillMatchPool cfg calcDist registry disasterType
        requiredSkills lat lon urgency := by
      have := List.take_subset cfg.maxMatches _ hm
      rw [List.mem_insertionSort] at this
      exact this
    obtain ⟨tag, htag, hmem⟩ := List.mem_flatMap.mp hm2
    obtain ⟨skills, hreg, s, hs, hq, hme, hth⟩ :=
      mem_skillMatchesForTag.mp hmem
    obtain ⟨h1, h2, h3⟩ := qualifiesSkill_iff.mp hq
    exact ⟨tag, htag, skills, hreg, s, hs, h1, h2, h3, hme, hth⟩
  · exact List.Pairwise.sublist (List.take_sublist _ _)
      (List.sorted_insertionSort scoreDesc _)
  · simp [findSkillMatches]

/-- A constant distance calculator used in concrete instances. -/
def constDist : ℚ → ℚ → ℚ → ℚ → ℚ := fun _ _ _ _ => 10

/-- A one-candidate skill registry: the tag "medic" yields the scenario
candidate, every other tag fails. -/
def wRegistry : String → Except Unit (List Skill) := fun t =>
  if t = "medic" then .ok [scenarioSkill] else .error ()

theorem scenarioMatchScore :
    (mkSkillMatch defaultConfig constDist 0 0 "medium"
      scenarioSkill).matchScore = 33/5 := by
  have hc : ¬ ("medium":String) = "critical" := by decide
  have hh : ¬ ("medium":String) = "high" := by decide
  norm_num [mkSkillMatch, constDist, calculateMatchScore, defaultConfig,
    scenarioSkill, trustOrDefault, jsMax, jsMin, hc, hh]

theorem wRegistry_eval :
    findSkillMatches defaultConfig constDist wRegistry "flood" ["medic"] 0 0
      "medium" = [mkSkillMatch defaultConfig constDist 0 0 "medium"
        scenarioSkill] := by
  have hsc := scenarioMatchScore
  have hq : qualifiesSkill "medic" scenarioSkill = true := by decide
  have hth : decide (defaultConfig.threshold ≤ (mkSkillMatch defaultConfig
      constDist 0 0 "medium" scenarioSkill).matchScore) = true := by
    rw [decide_eq_true_eq, hsc]
    norm_num [defaultConfig]
  have hpool : skillMatchPool defaultConfig constDist wRegistry "flood"
      ["medic"] 0 0 "medium" = [mkSkillMatch defaultConfig constDist 0 0
        "medium" scenarioSkill] := by
    simp [skillMatchPool, skillsToFind, skillMatchesForTag, wRegistry,
      hq, hth, List.filter_cons]
  unfold findSkillMatches
  rw [hpool]
  simp [List.insertionSort, List.orderedInsert, defaultConfig]

/-- C4 (witness): a concrete pool containing one qualifying medic, where the
returned match is in the output and the soundness conjunct applies to it. -/
theorem findSkillMatches_output_spec_witness :
    mkSkillMatch defaultConfig constDist 0 0 "medium" scenarioSkill ∈
      findSkillMatches defaultConfig constDist wRegistry "flood" ["medic"]
        0 0 "medium" ∧
    ∃ tag ∈ skillsToFind "flood" ["medic"], ∃ skills,
      wRegistry tag = .ok skills ∧ ∃ s ∈ skills,
        s.skillType = tag ∧ s.availability = "available" ∧
        s.verified = true ∧
        mkSkillMatch defaultConfig constDist 0 0 "medium" scenarioSkill =
          mkSkillMatch defaultConfig constDist 0 0 "medium" s ∧
        defaultConfig.threshold ≤
          (mkSkillMatch defaultConfig constDist 0 0 "medium"
            scenarioSkill).matchScore := by
  have hmem : mkSkillMatch defaultConfig constDist 0 0 "medium"
      scenarioSkill ∈ findSkillMatches defaultConfig constDist wRegistry
        "flood" ["medic"] 0 0 "medium" := by
    rw [wRegistry_eval]
    exact List.mem_singleton.mpr rfl
  exact ⟨hmem, (findSkillMatches_output_spec defaultConfig constDist wRegistry
    "flood" ["medic"] 0 0 "medium").1 _ hmem⟩

theorem qualifiesResource_iff {tag : String} {r : Resource} :
    qualifiesResource tag r = true ↔
      r.resourceType = tag ∧ r.availability = "available" := by
  simp [qualifiesResource]

theorem mem_resourceMatchesForTag {calcDist : ℚ → ℚ → ℚ → ℚ → ℚ}
    {registry : String → Except Unit (List Resource)} {lat lon : ℚ}
    {tag : String} {m : ResourceMatch} :
    m ∈ resourceMatchesForTag calcDist registry lat lon tag ↔
      ∃ rs, registry tag = .ok rs ∧
        ∃ r ∈ rs, qualifiesResource tag r = true ∧
          m = mkResourceMatch calcDist lat lon r := by
  unfold resourceMatchesForTag
  cases hreg : registry tag with
  | error e => simp
  | ok rs =>
    simp only [List.mem_map, List.mem_filter, Except.ok.injEq]
    constructor
    · rintro ⟨r, ⟨hr, hq⟩, rfl⟩
      exact ⟨rs, rfl, r, hr, hq, rfl⟩
    · rintro ⟨rs', hrs, r, hr, hq, rfl⟩
      cases hrs
      exact ⟨r, ⟨hr, hq⟩, rfl⟩

/-- C5: every element of the output of `findResourceMatches` stems from a
registry candidate whose resource type equals a requested type and which is
available; the output is sorted in non-decreasing order of distance and has
length at most the configured maximum; and a persisted resource match always
carries the fixed `matchScore` 8.0 and a NULL `trustScore`. -/
theorem findResourceMatches_output_spec (cfg : Config)
    (calcDist : ℚ → ℚ → ℚ → ℚ → ℚ)
    (registry : String → Except Unit (List Resource)) (disasterType : String)
    (requiredResources : List String) (lat lon : ℚ) (urgency : String) :
    (∀ m ∈ findResourceMatches cfg calcDist registry disasterType
        requiredResources lat lon urgency,
      ∃ tag ∈ requiredResources, ∃ rs, registry tag = .ok rs ∧
        ∃ r ∈ rs, r.resourceType = tag ∧ r.availability = "available" ∧
          m = mkResourceMatch calcDist lat lon r) ∧
    List.Sorted distAsc (findResourceMatches cfg calcDist registry
      disasterType requiredResources lat lon urgency) ∧
    (findResourceMatches cfg calcDist registry disasterType requiredResources
      lat lon urgency).length ≤ cfg.maxMatches ∧
    (∀ (now : ℕ) (matchId requestId : String) (m : ResourceMatch),
      (saveResourceMatch now matchId requestId m).matchScore = 8 ∧
      (saveResourceMatch now matchId requestId m).trustScore = none) := by
  refine ⟨?_, ?_, ?_, ?_⟩
  · intro m hm
    have hm2 : m ∈ requiredResources.flatMap
        (resourceMatchesForTag calcDist registry lat lon) := by
      have := List.take_subset cfg.maxMatches _ hm
      rw [List.mem_insertionSort] at this
      exact this
    obtain ⟨tag, htag, hmem⟩ := List.mem_flatMap.mp hm2
    obtain ⟨rs, hreg, r, hr, hq, hme⟩ := mem_resourceMatchesForTag.mp hmem
    obtain ⟨h1, h2⟩ := qualifiesResource_iff.mp hq
    exact ⟨tag, htag, rs, hreg, r, hr, h1, h2, hme⟩
  · exact List.Pairwise.sublist (List.take_sublist _ _)
      (List.sorted_insertionSort distAsc _)
  · simp [findResourceMatches]
  · intro now matchId requestId m
    exact ⟨rfl, rfl⟩

/-- A concrete available boat resource. -/
def boatResource : Resource :=
  { userId := "o1", resourceId := "r1", resourceType := "boat",
    availability := "available", locationLat := 0, locationLon := 0 }

/-- A one-candidate resource registry: "boat" yields the boat resource,
every other type fails. -/
def wResourceRegistry : String → Except Unit (List Resource) := fun t =>
  if t = "boat" then .ok [boatResource] else .error ()

theorem wResourceRegistry_eval :
    findResourceMatches defaultConfig constDist wResourceRegistry "flood"
      ["boat"] 0 0 "medium" = [mkResourceMatch constDist 0 0 boatResource] := by
  have hq : qualifiesResource "boat" boatResource = true := by decide
  simp [findResourceMatches, resourceMatchesForTag, wResourceRegistry, hq,
    List.insertionSort, List.orderedInsert, defaultConfig, List.filter_cons]

/-- C5 (witness): a concrete pool with one available boat, where the
returned match is in the output and the soundness conjunct applies to it. -/
theorem findResourceMatches_output_spec_witness :
    mkResourceMatch constDist 0 0 boatResource ∈
      findResourceMatches defaultConfig constDist wResourceRegistry "flood"
        ["boat"] 0 0 "medium" ∧
    ∃ tag ∈ ["boat"], ∃ rs, wResourceRegistry tag = .ok rs ∧
      ∃ r ∈ rs, r.resourceType = tag ∧ r.availability = "available" ∧
        mkResourceMatch constDist 0 0 boatResource =
          mkResourceMatch constDist 0 0 r := by
  have hmem : mkResourceMatch constDist 0 0 boatResource ∈
      findResourceMatches defaultConfig constDist wResourceRegistry "flood"
        ["boat"] 0 0 "medium" := by
    rw [wResourceRegistry_eval]
    exact List.mem_singleton.mpr rfl
  exact ⟨hmem, (findResourceMatches_output_spec defaultConfig constDist
    wResourceRegistry "flood" ["boat"] 0 0 "medium").1 _ hmem⟩

theorem flatMap_congr_of_mem {α β : Type} {l : List α} {f g : α → List β}
    (h : ∀ a ∈ l, f a = g a) : l.flatMap f = l.flatMap g := by
  induction l with
  | nil => rfl
  | cons a t ih =>
    rw [List.flatMap_cons, List.flatMap_cons, h a (List.mem_cons_self a t),
      ih fun b hb => h b (List.mem_cons_of_mem a hb)]

/-- C7: a failed registry query for one skill tag is equivalent to that tag
yielding zero candidates — the whole matcher result is unchanged if every
failing tag is replaced by an empty successful response, so all remaining
tags are still processed; moreover, whenever some tag's query succeeds with
a qualifying candidate, the result is non-empty (given a positive match
cap), and when no truncation occurs the qualifying candidate's match is in
the result. The matcher is a total function, so it raises nothing. -/
theorem findSkillMatches_tag_failure_tolerant (cfg : Config)
    (calcDist : ℚ → ℚ → ℚ → ℚ → ℚ)
    (registry : String → Except Unit (List Skill)) (disasterType : String)
    (requiredSkills : List String) (lat lon : ℚ) (urgency : String)
    (failTag : String) (hfailTag : registry failTag = .error ()) :
    (findSkillMatches cfg calcDist registry disasterType requiredSkills lat
        lon urgency =
      findSkillMatches cfg calcDist
        (fun t => match registry t with
          | .error _ => .ok []
          | .ok skills => .ok skills)
        disasterType requiredSkills lat lon urgency) ∧
    (∀ tag ∈ skillsToFind disasterType requiredSkills,
      ∀ skills, registry tag = .ok skills →
      ∀ s ∈ skills, qualifiesSkill tag s = true →
      cfg.threshold ≤ (mkSkillMatch cfg calcDist lat lon urgency
        s).matchScore →
      (1 ≤ cfg.maxMatches →
        findSkillMatches cfg calcDist registry disasterType requiredSkills
          lat lon urgency ≠ []) ∧
      ((skillMatchPool cfg calcDist registry disasterType requiredSkills lat
          lon urgency).length ≤ cfg.maxMatches →
        mkSkillMatch cfg calcDist lat lon urgency s ∈
          findSkillMatches cfg calcDist registry disasterType requiredSkills
            lat lon urgency)) := by
  constructor
  · have hper : ∀ t, skillMatchesForTag cfg calcDist registry lat lon
        urgency t =
        skillMatchesForTag cfg calcDist
          (fun t' => match registry t' with
            | .error _ => .ok []
            | .ok skills => .ok skills) lat lon urgency t := by
      intro t
      unfold skillMatchesForTag
      cases hr : registry t with
      | error e => simp [hr]
      | ok skills => simp [hr]
    unfold findSkillMatches skillMatchPool
    rw [flatMap_congr_of_mem fun t _ => hper t]
  · intro tag htag skills hreg s hs hq hth
    have hpoolmem : mkSkillMatch cfg calcDist lat lon urgency s ∈
        skillMatchPool cfg calcDist registry disasterType requiredSkills lat
          lon urgency := by
      refine List.mem_flatMap.mpr ⟨tag, htag, ?_⟩
      exact mem_skillMatchesForTag.mpr ⟨skills, hreg, s, hs, hq, rfl, hth⟩
    have hlen : (List.insertionSort scoreDesc (skillMatchPool cfg calcDist
        registry disasterType requiredSkills lat lon urgency)).length =
        (skillMatchPool cfg calcDist registry disasterType requiredSkills lat
          lon urgency).length :=
      (List.perm_insertionSort scoreDesc _).length_eq
    constructor
    · intro hmax hempty
      unfold findSkillMatches at hempty
      rcases List.take_eq_nil_iff.mp hempty with h0 | hnil
      · omega
      · have : (skillMatchPool cfg calcDist registry disasterType
            requiredSkills lat lon urgency).length = 0 := by
          rw [← hlen, hnil]
          rfl
        rw [List.length_eq_zero.mp this] at hpoolmem
        exact List.not_mem_nil _ hpoolmem
    · intro hsmall
      unfold findSkillMatches
      rw [List.take_of_length_le (by rw [hlen]; exact hsmall),
        List.mem_insertionSort]
      exact hpoolmem

/-- C7 (witness): with the one-candidate registry, the query for
"firefighter" fails, yet searching [firefighter, medic] still returns the
medic match and a non-empty result. -/
theorem findSkillMatches_tag_failure_tolerant_witness :
    wRegistry "firefighter" = .error () ∧
    findSkillMatches defaultConfig constDist wRegistry "flood"
      ["firefighter", "medic"] 0 0 "medium" ≠ [] := by
  refine ⟨rfl, ?_⟩
  have hth : defaultConfig.threshold ≤ (mkSkillMatch defaultConfig constDist
      0 0 "medium" scenarioSkill).matchScore := by
    rw [scenarioMatchScore]
    norm_num [defaultConfig]
  exact (((findSkillMatches_tag_failure_tolerant defaultConfig constDist
    wRegistry "flood" ["firefighter", "medic"] 0 0 "medium" "firefighter"
    rfl).2 "medic" (by simp [skillsToFind]) [scenarioSkill] rfl scenarioSkill
    (List.mem_singleton.mpr rfl) (by decide) hth).1
    (by norm_num [defaultConfig]))

theorem insertAll_eq (w : MatchRow → Bool) (l : List MatchRow) :
    insertAll w l = (l.takeWhile w, l.all w) := by
  induction l with
  | nil => rfl
  | cons r rs ih =>
    by_cases hw : w r
    · simp [insertAll, hw, List.takeWhile_cons, ih]
    · simp [insertAll, hw, List.takeWhile_cons]

theorem length_takeWhile_lt_of_all_false {α : Type} {w : α → Bool}
    {l : List α} (h : l.all w = false) :
    (l.takeWhile w).length < l.length := by
  induction l with
  | nil => simp at h
  | cons r rs ih =>
    by_cases hw : w r
    · rw [List.all_cons, hw, Bool.true_and] at h
      simpa [List.takeWhile_cons, hw] using Nat.succ_lt_succ (ih h)
    · simp [List.takeWhile_cons, hw]

/-- C8: if persisting some match record fails during `processSOSRequest`,
the run's outcome is the propagated error, no `match.created` events are
published, no status report is attempted, and the rows persisted are
exactly the prefix before the failing write — strictly fewer than the full
batch, so no further matches are persisted. -/
theorem processSOSRequest_persist_failure_aborts (cfg : Config)
    (calcDist : ℚ → ℚ → ℚ → ℚ → ℚ)
    (skillRegistry : String → Except Unit (List Skill))
    (resourceRegistry : String → Except Unit (List Resource))
    (dbWrite : MatchRow → Bool) (genId : ℕ → String) (now : ℕ)
    (disasterLookup : Except Unit String) (sos : SOSData)
    (hfail : (pipelineRows cfg calcDist skillRegistry resourceRegistry genId
      now (resolveDisasterType disasterLookup) sos).all dbWrite = false) :
    (processSOSRequest cfg calcDist skillRegistry resourceRegistry dbWrite
      genId now disasterLookup sos).outcome = .error () ∧
    (processSOSRequest cfg calcDist skillRegistry resourceRegistry dbWrite
      genId now disasterLookup sos).events = [] ∧
    (processSOSRequest cfg calcDist skillRegistry resourceRegistry dbWrite
      genId now disasterLookup sos).statusReported = false ∧
    (processSOSRequest cfg calcDist skillRegistry resourceRegistry dbWrite
      genId now disasterLookup sos).persisted =
      (pipelineRows cfg calcDist skillRegistry resourceRegistry genId now
        (resolveDisasterType disasterLookup) sos).takeWhile dbWrite ∧
    (processSOSRequest cfg calcDist skillRegistry resourceRegistry dbWrite
      genId now disasterLookup sos).persisted.length <
      (pipelineRows cfg calcDist skillRegistry resourceRegistry genId now
        (resolveDisasterType disasterLookup) sos).length := by
  unfold processSOSRequest
  simp only [insertAll_eq, hfail, Bool.false_eq_true, if_false]
  exact ⟨trivial, trivial, trivial, trivial,
    length_takeWhile_lt_of_all_false hfail⟩

/-- A store write that always throws. -/
def failWrite : MatchRow → Bool := fun _ => false

/-- A concrete SOS payload asking for one medic and one boat. -/
def wSos : SOSData :=
  { requestId := "req1", disasterId := "d1", urgency := "medium",
    requiredSkills := some ["medic"], requiredResources := some ["boat"],
    lat := 0, lon := 0 }

theorem wPipelineRows_eval :
    pipelineRows defaultConfig constDist wRegistry wResourceRegistry
      (fun _ => "m") 0 (resolveDisasterType (.error ())) wSos =
    [saveMatch 0 "m" "req1"
        (mkSkillMatch defaultConfig constDist 0 0 "medium" scenarioSkill),
      saveResourceMatch 0 "m" "req1"
        (mkResourceMatch constDist 0 0 boatResource)] := by
  have h1 : resolveDisasterType (.error ()) = "flood" := rfl
  rw [h1]
  unfold pipelineRows
  rw [show wSos.requiredSkills.getD [] = ["medic"] from rfl,
    show wSos.requiredResources.getD [] = ["boat"] from rfl,
    show wSos.lat = 0 from rfl, show wSos.lon = 0 from rfl,
    show wSos.urgency = "medium" from rfl,
    show wSos.requestId = "req1" from rfl,
    wRegistry_eval, wResourceRegistry_eval]
  simp [List.enum]

/-- C8 (witness): a concrete run in which every store write throws: the
outcome is the error, no events are published and no status report is
attempted. -/
theorem processSOSRequest_persist_failure_witness :
    (processSOSRequest defaultConfig constDist wRegistry wResourceRegistry
      failWrite (fun _ => "m") 0 (.error ()) wSos).outcome = .error () ∧
    (processSOSRequest defaultConfig constDist wRegistry wResourceRegistry
      failWrite (fun _ => "m") 0 (.error ()) wSos).events = [] ∧
    (processSOSRequest defaultConfig constDist wRegistry wResourceRegistry
      failWrite (fun _ => "m") 0 (.error ()) wSos).statusReported = false := by
  have hfail : (pipelineRows defaultConfig constDist wRegistry
      wResourceRegistry (fun _ => "m") 0 (resolveDisasterType (.error ()))
      wSos).all failWrite = false := by
    rw [wPipelineRows_eval]
    rfl
  obtain ⟨h1, h2, h3, _, _⟩ := processSOSRequest_persist_failure_aborts
    defaultConfig constDist wRegistry wResourceRegistry failWrite
    (fun _ => "m") 0 (.error ()) wSos hfail
  exact ⟨h1, h2, h3⟩

/-- A stored match that has already been accepted (status "accepted",
`acceptedAt` set at tick 1). -/
def exAcceptedRow : MatchRow :=
  { matchId := "m1", requestId := "r1", volunteerId := "v1",
    skillId := some "s1", resourceId := none, skillType := some "medic",
    resourceType := none, matchScore := 7, distance := 2,
    trustScore := some 8, status := "accepted", acceptedAt := some 1,
    rejectedAt := none, rejectionReason := none, createdAt := 0,
    updatedAt := 1 }

/-- C1 (counterexample): the accept/reject WHERE clause checks only
`match_id` and `volunteer_id`, not the stored status. On a store holding one
already-accepted match, a second accept by the owner returns a row (the
route answers 200, not not-found/unauthorized) and mutates the stored record
(`acceptedAt`/`updatedAt` move from tick 1 to tick 2); a reject by the owner
also succeeds and overwrites the status to "rejected". -/
theorem accept_terminal_counterexample :
    (acceptUpdate 2 "m1" "v1" [exAcceptedRow]).2 ≠ [] ∧
    (acceptUpdate 2 "m1" "v1" [exAcceptedRow]).1 ≠ [exAcceptedRow] ∧
    (rejectUpdate 3 "m1" "v1" (some "changed my mind") [exAcceptedRow]).1 =
      [applyReject 3 (some "changed my mind") exAcceptedRow] := by
  have hown : matchesOwner "m1" "v1" exAcceptedRow = true := by decide
  refine ⟨?_, ?_, ?_⟩
  · simp [acceptUpdate, exAcceptedRow, matchesOwner, List.filter_cons]
  · simp only [acceptUpdate, List.map_cons, List.map_nil, hown, if_true,
      ne_eq, List.cons.injEq, and_true]
    intro h
    have := congrArg MatchRow.updatedAt h
    simp [applyAccept, exAcceptedRow] at this
  · simp [rejectUpdate, hown]

/-- C1 (amended): Accept and Reject succeed exactly when a row with the
given `matchId` and `volunteerId` exists, regardless of its stored status:
not-found/unauthorized (an empty RETURNING set) is answered iff no row
matches those two columns, and only then is the store left unchanged; every
row matching them — pending, accepted or rejected alike — is overwritten by
the accept (resp. reject) SET clause, so the transitions are not one-way. -/
theorem accept_reject_ownership_only (now : ℕ)
    (matchId volunteerId : String) (reason : Option String)
    (db : List MatchRow) :
    ((acceptUpdate now matchId volunteerId db).2 = [] ↔
      ∀ r ∈ db, ¬(r.matchId = matchId ∧ r.volunteerId = volunteerId)) ∧
    ((acceptUpdate now matchId volunteerId db).2 = [] →
      (acceptUpdate now matchId volunteerId db).1 = db) ∧
    (∀ r ∈ db, r.matchId = matchId → r.volunteerId = volunteerId →
      applyAccept now r ∈ (acceptUpdate now matchId volunteerId db).1) ∧
    ((rejectUpdate now matchId volunteerId reason db).2 = [] ↔
      ∀ r ∈ db, ¬(r.matchId = matchId ∧ r.volunteerId = volunteerId)) ∧
    (∀ r ∈ db, r.matchId = matchId → r.volunteerId = volunteerId →
      applyReject now reason r ∈
        (rejectUpdate now matchId volunteerId reason db).1) := by
  have hiff : ∀ r : MatchRow, matchesOwner matchId volunteerId r = true ↔
      r.matchId = matchId ∧ r.volunteerId = volunteerId := by
    intro r
    simp [matchesOwner]
  refine ⟨?_, ?_, ?_, ?_, ?_⟩
  · rw [show (acceptUpdate now matchId volunteerId db).2 =
      (db.filter (matchesOwner matchId volunteerId)).map (applyAccept now)
      from rfl]
    rw [List.map_eq_nil_iff, List.filter_eq_nil_iff]
    constructor
    · intro h r hr hc
      exact h r hr ((hiff r).mpr hc)
    · intro h r hr hm
      exact h r hr ((hiff r).mp hm)
  · intro h
    rw [show (acceptUpdate now matchId volunteerId db).2 =
      (db.filter (matchesOwner matchId volunteerId)).map (applyAccept now)
      from rfl, List.map_eq_nil_iff, List.filter_eq_nil_iff] at h
    rw [show (acceptUpdate now matchId volunteerId db).1 =
      db.map (fun r => if matchesOwner matchId volunteerId r then
        applyAccept now r else r) from rfl]
    rw [List.map_congr_left fun r hr => if_neg (by
      simpa using h r hr)]
    exact List.map_id db
  · intro r hr h1 h2
    exact List.mem_map.mpr ⟨r, hr, by
      rw [if_pos ((hiff r).mpr ⟨h1, h2⟩)]⟩
  · rw [show (rejectUpdate now matchId volunteerId reason db).2 =
      (db.filter (matchesOwner matchId volunteerId)).map
        (applyReject now reason) from rfl]
    rw [List.map_eq_nil_iff, List.filter_eq_nil_iff]
    constructor
    · intro h r hr hc
      exact h r hr ((hiff r).mpr hc)
    · intro h r hr hm
      exact h r hr ((hiff r).mp hm)
  · intro r hr h1 h2
    exact List.mem_map.mpr ⟨r, hr, by
      rw [if_pos ((hiff r).mpr ⟨h1, h2⟩)]⟩

/-- C1 (witness): on the store holding the already-accepted match, the
accept overwrite lands in the updated table for its owner. -/
theorem accept_reject_ownership_only_witness :
    applyAccept 2 exAcceptedRow ∈
      (acceptUpdate 2 "m1" "v1" [exAcceptedRow]).1 :=
  (accept_reject_ownership_only 2 "m1" "v1" none [exAcceptedRow]).2.2.1
    exAcceptedRow (List.mem_singleton.mpr rfl) rfl rfl

end RescueMesh
